import Mathlib

set_option maxRecDepth 100000

/-!
Verification model of the EIP1559-sender repository.

The repository is a Go command-line tool that builds, signs and broadcasts an
EIP-1559 dynamic-fee transaction.  It has three variants: `main.go` (native and
ERC-20 transfers) and two earlier unnamed variants (`part_000`, `part_001`,
native transfers only).  The model below embeds the pure computations of the
three variants: flag validation, the effects performed before the RPC endpoint
is dialed, the fee-cap arithmetic, the amount conversions (which go through Go
`float64` and `math/big.Float` binary floating-point arithmetic, modelled
exactly as dyadic rationals with explicit round-to-nearest-even), and the
construction of the dynamic-fee transaction record.  The RPC endpoint, hex
parsing and ABI encoding are external collaborators and enter the model as
parameters of an environment record; a run that aborts on a fatal RPC or parse
error never constructs a transaction and is represented by `none`.
-/

/-- Fuel-based binary-digit counter, written so that it evaluates inside the
kernel on large literals. -/
def bitsAux : ℕ → ℕ → ℕ
  | 0, _ => 0
  | fuel + 1, n => if n = 0 then 0 else bitsAux fuel (n / 2) + 1

/-- Number of binary digits of `n`; for `n > 0` this is `⌊log₂ n⌋ + 1`. -/
def bits (n : ℕ) : ℕ := bitsAux n n

/-- A dyadic rational `num / 2 ^ exp`: the exact value of a Go `float64` or of
a `math/big.Float` (which stores a binary mantissa and exponent), in normal
range. -/
structure Dy where
  num : ℤ
  exp : ℕ
deriving DecidableEq

/-- Exact product of two dyadic rationals. -/
def Dy.mul (a b : Dy) : Dy := ⟨a.num * b.num, a.exp + b.exp⟩

/-- The dyadic rational of an integer. -/
def Dy.ofInt (n : ℤ) : Dy := ⟨n, 0⟩

/-- Truncation of a dyadic rational toward zero: the conversion
`big.Float.Int` performs in Go. -/
def Dy.trunc (x : Dy) : ℤ := Int.tdiv x.num ((2 : ℤ) ^ x.exp)

/-- Round a natural-number mantissa `m` to `p` significant bits, nearest, ties
to even; returns the rounded mantissa and the number of dropped binary
places. -/
def roundMag (p m : ℕ) : ℕ × ℕ :=
  let b := bits m
  if b ≤ p then (m, 0)
  else
    let s := b - p
    let low := m / 2 ^ s
    let rem := m - low * 2 ^ s
    let half := 2 ^ (s - 1)
    (if half < rem ∨ (rem = half ∧ low % 2 = 1) then low + 1 else low, s)

/-- Round a dyadic value to `p` significant bits.  This is the rounding Go's
arbitrary-precision `big.Float` performs at mantissa precision `p` under its
default rounding mode `ToNearestEven`, and (with `p = 53`) the rounding of
IEEE binary64 in normal range; `big.Float` is sign-magnitude, so negative
values round by magnitude, which coincides with IEEE round-to-nearest-even. -/
def dyRound (p : ℕ) (x : Dy) : Dy :=
  let ms := roundMag p x.num.natAbs
  ⟨(if x.num < 0 then -1 else 1) * (ms.1 : ℤ) * (2 : ℤ) ^ ms.2, x.exp⟩

/-- The IEEE binary64 (`float64`) value nearest to `num / den` (`den ≠ 0`),
ties to even: models the correctly rounded `strconv.ParseFloat` /
`flag.Float64` parse of a decimal amount, for results in the normal range. -/
def fl64OfFrac (num : ℤ) (den : ℕ) : Dy :=
  let a := num.natAbs
  if a = 0 then ⟨0, 0⟩
  else
    let e : ℤ := (bits a : ℤ) - (bits den : ℤ)
    let ge : Bool :=
      if 0 ≤ e then decide (den * 2 ^ e.toNat ≤ a) else decide (den ≤ a * 2 ^ (-e).toNat)
    let e2 : ℤ := if ge then e else e - 1
    let s : ℤ := 52 - e2
    let nd : ℕ × ℕ := if 0 ≤ s then (a * 2 ^ s.toNat, den) else (a, den * 2 ^ (-s).toNat)
    let q0 := nd.1 / nd.2
    let r := nd.1 % nd.2
    let q := if nd.2 < 2 * r ∨ (2 * r = nd.2 ∧ q0 % 2 = 1) then q0 + 1 else q0
    let mag : Dy := if 0 ≤ s then ⟨(q : ℤ), s.toNat⟩ else ⟨(q : ℤ) * 2 ^ (-s).toNat, 0⟩
    if num < 0 then ⟨-mag.num, mag.exp⟩ else mag

/-- Go `math.Pow10 n` for `0 ≤ n ≤ 308` (a token's `decimals` is a `uint8`, so
at most 255): the `float64` product `pow10postab32[n/32] * pow10tab[n%32]`,
where the table entries are the correctly rounded `float64` literals
`1e(32*(n/32))` and `1e(n%32)`. -/
def pow10F (n : ℕ) : Dy :=
  dyRound 53 (Dy.mul (dyRound 53 (Dy.ofInt (10 ^ (32 * (n / 32)))))
    (dyRound 53 (Dy.ofInt (10 ^ (n % 32)))))

/-- The human-readable native amount converted to wei, as `main.go` lines
99-103 and `part_000`/`part_001` compute it: the `float64` flag value is put in
a `big.Float` of precision 53, `weiPerToken = big.NewInt(1e18)` (exact) is put
in a `big.Float` of precision 64, their product is formed in a fresh
`big.Float` (precision 64, the larger of the two), and the result is truncated
to an integer by `big.Float.Int`.  The argument `a` is the exact value of the
parsed `float64` flag. -/
def ethWeiValue (a : Dy) : ℤ :=
  Dy.trunc (dyRound 64 (Dy.mul a (Dy.ofInt (10 ^ 18))))

/-- The human-readable token amount converted to base units, as `main.go`
lines 118-119 compute it: `big.NewFloat(*tokenValueFlag)` (precision 53) is
multiplied by a precision-53 `big.Float` holding `math.Pow10(int(decimals))`,
the product is formed in a fresh `big.Float` (precision 53), and truncated to
an integer by `big.Float.Int`.  `a` is the exact value of the parsed `float64`
flag and `d` the token's reported `decimals`. -/
def tokenBaseUnits (a : Dy) (d : ℕ) : ℤ :=
  Dy.trunc (dyRound 53 (Dy.mul a (pow10F d)))

/-- Observable actions of a run before (and including) dialing the RPC
endpoint: an error line on the output, the usage text, a nonzero process exit,
or the dial itself. -/
inductive Effect where
  | printErr : String → Effect
  | printUsage : Effect
  | exitNonzero : Effect
  | dial : String → Effect
deriving DecidableEq

/-- Whether an effect is the dial of an RPC endpoint (a network action). -/
def isDial : Effect → Bool
  | Effect.dial _ => true
  | _ => false

/-- The command-line flags of `main.go`.  `tokenValue` holds the exact value
of the parsed `float64`; the string flags default to `""` and the numeric
flags to zero when absent, exactly as Go's `flag` package does. -/
structure Flags where
  privateKey : String
  receiver : String
  rpcURL : String
  chainID : ℤ
  tokenValue : Dy
  tokenContract : String
  tokenABI : String

/-- The command-line flags of `part_000` and `part_001`, which have no token
flags. -/
structure Flags001 where
  privateKey : String
  receiver : String
  rpcURL : String
  chainID : ℤ
  tokenValue : Dy

/-- `main.go` lines 41-58: after `flag.Parse`, the required-flag check (lines
44-48: print an error line, print the usage text, `os.Exit(1)`), then the
tokenContract/tokenABI pairing check (lines 51-55, same exit path), then the
dial of the RPC endpoint (line 58).  Nothing else happens in between. -/
def mainGoPreDial (f : Flags) : List Effect :=
  if f.privateKey = "" ∨ f.receiver = "" ∨ f.rpcURL = "" ∨ f.tokenValue.num = 0 then
    [Effect.printErr ("Error: Missing required parameters"), Effect.printUsage,
      Effect.exitNonzero]
  else if (f.tokenContract = "" ∧ f.tokenABI ≠ "") ∨ (f.tokenContract ≠ "" ∧ f.tokenABI = "") then
    [Effect.printErr ("Error: Both tokenContract and tokenABI must be provided for ERC20 transfers"),
      Effect.printUsage, Effect.exitNonzero]
  else [Effect.dial f.rpcURL]

/-- `part_000` lines 25-36: after `flag.Parse`, the required-flag check via
`log.Fatal("All flags are required")` (which prints the message and exits with
status 1, without printing the usage text), then the dial of the RPC
endpoint. -/
def part000PreDial (f : Flags001) : List Effect :=
  if f.privateKey = "" ∨ f.receiver = "" ∨ f.rpcURL = "" ∨ f.tokenValue.num = 0 then
    [Effect.printErr ("All flags are required"), Effect.exitNonzero]
  else [Effect.dial f.rpcURL]

/-- `part_001` lines 34-48: after `flag.Parse`, the required-flag check (print
an error line, print the usage text, `os.Exit(1)`), then the dial of the RPC
endpoint. -/
def part001PreDial (f : Flags001) : List Effect :=
  if f.privateKey = "" ∨ f.receiver = "" ∨ f.rpcURL = "" ∨ f.tokenValue.num = 0 then
    [Effect.printErr ("Error: Missing required parameters"), Effect.printUsage,
      Effect.exitNonzero]
  else [Effect.dial f.rpcURL]

/-- A raw `ethereum.CallMsg` as `getTokenDecimals` builds it: a destination
contract address (addresses modelled as numbers) and call data (a byte
list). -/
structure CallMsg where
  toAddr : ℕ
  data : List ℕ
deriving DecidableEq

/-- `main.go` lines 205-206: the call message for the decimals query.  The
data is the literal `[]byte{0x31, 0x3c, 0xe5, 0x67}`, the 4-byte function
selector of `decimals()` (the first four bytes of keccak256 of the signature
string). -/
def decimalsCallMsg (tokenAddress : ℕ) : CallMsg :=
  ⟨tokenAddress, [0x31, 0x3c, 0xe5, 0x67]⟩

/-- `main.go` lines 204-212 (`getTokenDecimals`): perform the raw contract
call with the decimals-selector message; if the call fails, return its error;
otherwise return `result[len(result)-1]`, the last byte of the returned data.
On an empty (but successful) result, the Go expression `result[len(result)-1]`
panics with an index-out-of-range runtime error instead of returning; the
panic outcome is modelled by `Except.ok none` (`List.getLast?` of `[]`),
distinct from the error-return path `Except.error`. -/
def getTokenDecimals (call : CallMsg → Except String (List ℕ)) (tokenAddress : ℕ) :
    Except String (Option ℕ) :=
  match call (decimalsCallMsg tokenAddress) with
  | Except.error e => Except.error e
  | Except.ok result => Except.ok result.getLast?

/-- The external collaborators of a run that got past flag validation, as the
program observes them: the chain id reported by the node, the library's
hex-to-address conversion, the pending nonce, the raw contract-call endpoint
(used only for the decimals query), the go-ethereum ABI encoder
`parsedABI.Pack` applied to a method name, an address argument and an amount
argument, the suggested gas tip cap, the base fee of the latest header, and
the node's gas estimate.  Each query either succeeds with these values or
aborts the run fatally before a transaction exists; the decimals call, whose
failure modes the claims discuss, is kept fallible. -/
structure Env where
  remoteChainID : ℤ
  hexToAddress : String → ℕ
  pendingNonce : ℕ
  callContract : CallMsg → Except String (List ℕ)
  abiPack : String → ℕ → ℤ → List ℕ
  suggestGasTipCap : ℤ
  baseFee : ℤ
  estimateGas : ℕ

/-- Chain-id resolution (`main.go` lines 64-75, identical in `part_000` and
`part_001`): a nonzero `-chainID` flag is used verbatim, otherwise the node is
queried. -/
def resolvedChainID (flagChainID : ℤ) (env : Env) : ℤ :=
  if flagChainID ≠ 0 then flagChainID else env.remoteChainID

/-- `main.go` lines 139-142: `gasFeeCap := new(big.Int).Add(header.BaseFee,
new(big.Int).Mul(gasTipCap, big.NewInt(2)))`, i.e. `baseFee + gasTipCap * 2`. -/
def mainGoGasFeeCap (env : Env) : ℤ :=
  env.baseFee + env.suggestGasTipCap * 2

/-- `part_000` lines 96-99 and `part_001` lines 108-111: `maxFeePerGas :=
new(big.Int).Add(new(big.Int).Mul(baseFee, big.NewInt(2)), gasTipCap)`, i.e.
`baseFee * 2 + gasTipCap`. -/
def part001MaxFeePerGas (env : Env) : ℤ :=
  env.baseFee * 2 + env.suggestGasTipCap

/-- The fields of the `types.DynamicFeeTx` record handed to `types.NewTx`
(after `NewTx`'s deep copy, which replaces a nil `Value` by zero). -/
structure DynFeeTx where
  chainID : ℤ
  nonce : ℕ
  gasTipCap : ℤ
  gasFeeCap : ℤ
  gas : ℕ
  toAddr : ℕ
  value : ℤ
  data : List ℕ
deriving DecidableEq

/-- The outer `transferAmount` variable of `main.go` (declared at line 95 as a
nil `*big.Int`) as it stands when a native-transfer transaction is built: line
102 binds a NEW `transferAmount` with `:=` inside the if-block (Go shorthand
declaration, shadowing the outer variable), so the computed wei amount is only
printed (line 103) and the outer pointer remains nil. -/
def mainGoOuterTransferAmount : Option ℤ := none

/-- `types.NewTx` deep-copies the `DynamicFeeTx`; its `copy` method turns a
nil `Value` pointer into a zero `big.Int`. -/
def txValueOfGoBigInt (v : Option ℤ) : ℤ := v.getD 0

/-- The native-transfer transaction `main.go` lines 164-173 build: destination
is the receiver, gas limit the constant 21000 (line 147), fee cap from
`mainGoGasFeeCap`, and value the outer (nil, hence zero after `NewTx`'s copy)
`transferAmount`. -/
def mainGoNativeTx (f : Flags) (env : Env) : DynFeeTx where
  chainID := resolvedChainID f.chainID env
  nonce := env.pendingNonce
  gasTipCap := env.suggestGasTipCap
  gasFeeCap := mainGoGasFeeCap env
  gas := 21000
  toAddr := env.hexToAddress f.receiver
  value := txValueOfGoBigInt mainGoOuterTransferAmount
  data := []

/-- The token-transfer transaction `main.go` lines 176-185 build, for reported
token decimals `d`: destination is the token contract, native value is
`big.NewInt(0)`, gas limit is the node's estimate (lines 149-156), and the
call data is `parsedABI.Pack("transfer", toAddress, transferAmount)` (line
122) with the receiver address and the computed base-unit amount. -/
def mainGoTokenTx (f : Flags) (env : Env) (d : ℕ) : DynFeeTx where
  chainID := resolvedChainID f.chainID env
  nonce := env.pendingNonce
  gasTipCap := env.suggestGasTipCap
  gasFeeCap := mainGoGasFeeCap env
  gas := env.estimateGas
  toAddr := env.hexToAddress f.tokenContract
  value := 0
  data := env.abiPack ("transfer") (env.hexToAddress f.receiver)
    (tokenBaseUnits f.tokenValue d)

/-- The transaction constructed by one run of `main.go`, or `none` when the
run exits first: the two flag-validation exits (lines 44-55), and on the token
path a failing decimals call (fatal, lines 113-116) or the empty-result panic
inside `getTokenDecimals`.  Runs aborted by other fatal RPC or parse errors
never reach transaction construction and are outside this function's
environment. -/
def mainGoTx (f : Flags) (env : Env) : Option DynFeeTx :=
  if f.privateKey = "" ∨ f.receiver = "" ∨ f.rpcURL = "" ∨ f.tokenValue.num = 0 then none
  else if (f.tokenContract = "" ∧ f.tokenABI ≠ "") ∨ (f.tokenContract ≠ "" ∧ f.tokenABI = "") then
    none
  else if f.tokenContract = "" then some (mainGoNativeTx f env)
  else
    match getTokenDecimals env.callContract (env.hexToAddress f.tokenContract) with
    | Except.error _ => none
    | Except.ok none => none
    | Except.ok (some d) => some (mainGoTokenTx f env d)

/-- The transaction `part_001` lines 114-123 build (the `part_000` code is
identical here): destination is the receiver, value is the computed wei
amount `weiValueBigInt`, gas limit is the node's estimate, and the fee cap is
`part001MaxFeePerGas`. -/
def part001BuiltTx (f : Flags001) (env : Env) : DynFeeTx where
  chainID := resolvedChainID f.chainID env
  nonce := env.pendingNonce
  gasTipCap := env.suggestGasTipCap
  gasFeeCap := part001MaxFeePerGas env
  gas := env.estimateGas
  toAddr := env.hexToAddress f.receiver
  value := ethWeiValue f.tokenValue
  data := []

/-- The transaction constructed by one run of `part_001`, or `none` when the
flag check exits first. -/
def part001Tx (f : Flags001) (env : Env) : Option DynFeeTx :=
  if f.privateKey = "" ∨ f.receiver = "" ∨ f.rpcURL = "" ∨ f.tokenValue.num = 0 then none
  else some (part001BuiltTx f env)

/-- A contract-call endpoint answering every call with a 32-byte word ending
in byte 6 (a token reporting `decimals() = 6`). -/
def callA : CallMsg → Except String (List ℕ) :=
  fun _ => Except.ok (List.replicate 31 0 ++ [6])

/-- A contract-call endpoint answering every call with a 32-byte word ending
in byte 23 (a token reporting `decimals() = 23`). -/
def callB : CallMsg → Except String (List ℕ) :=
  fun _ => Except.ok (List.replicate 31 0 ++ [23])

/-- A contract-call endpoint answering with an empty (but successful)
result. -/
def callEmptyA : CallMsg → Except String (List ℕ) :=
  fun _ => Except.ok []

/-- A contract-call endpoint whose calls fail. -/
def callErrA : CallMsg → Except String (List ℕ) :=
  fun _ => Except.error ("boom")

/-- A concrete environment realising the spec's end-to-end scenario: base fee
100000000, suggested priority fee 0; addresses are resolved by string length,
the ABI encoder is an injective stand-in recording the selector of
`transfer(address,uint256)` and both arguments, and the decimals query reports
6. -/
def envA : Env where
  remoteChainID := 99
  hexToAddress := String.length
  pendingNonce := 5
  callContract := callA
  abiPack := fun _ a n => [0xa9, 0x05, 0x9c, 0xbb, a, n.natAbs]
  suggestGasTipCap := 0
  baseFee := 100000000
  estimateGas := 60000

/-- Like `envA`, but the token reports `decimals() = 23` and the ABI-encoder
stand-in records just the base-unit amount argument. -/
def envB : Env where
  remoteChainID := 99
  hexToAddress := String.length
  pendingNonce := 5
  callContract := callB
  abiPack := fun _ _ n => [n.natAbs]
  suggestGasTipCap := 0
  baseFee := 100000000
  estimateGas := 60000

/-- Flags for the spec's end-to-end native transfer: chain id 421614, amount
0.001, no token flags. -/
def fNativeA : Flags where
  privateKey := "k"
  receiver := "r"
  rpcURL := "u"
  chainID := 421614
  tokenValue := fl64OfFrac 1 1000
  tokenContract := ""
  tokenABI := ""

/-- Flags for a token transfer of amount 0.001. -/
def fTokenA : Flags where
  privateKey := "k"
  receiver := "r"
  rpcURL := "u"
  chainID := 421614
  tokenValue := fl64OfFrac 1 1000
  tokenContract := "cc"
  tokenABI := "json"

/-- Flags for a token transfer of amount 1 (whose `float64` value is exact). -/
def fToken23 : Flags where
  privateKey := "k"
  receiver := "r"
  rpcURL := "u"
  chainID := 421614
  tokenValue := fl64OfFrac 1 1
  tokenContract := "cc"
  tokenABI := "json"

/-- Flags supplying a token contract but no token ABI (with all required flags
present). -/
def fBadPair : Flags where
  privateKey := "k"
  receiver := "r"
  rpcURL := "u"
  chainID := 421614
  tokenValue := fl64OfFrac 1 1000
  tokenContract := "cc"
  tokenABI := ""

/-- Flags with a required flag (the private key) absent, `main.go` form. -/
def fMissA : Flags where
  privateKey := ""
  receiver := "r"
  rpcURL := "u"
  chainID := 0
  tokenValue := fl64OfFrac 1 1000
  tokenContract := ""
  tokenABI := ""

/-- Flags for the earlier variants matching the end-to-end scenario. -/
def f001A : Flags001 where
  privateKey := "k"
  receiver := "r"
  rpcURL := "u"
  chainID := 421614
  tokenValue := fl64OfFrac 1 1000

/-- Flags for the earlier variants with a required flag (the private key)
absent. -/
def f001Miss : Flags001 where
  privateKey := ""
  receiver := "r"
  rpcURL := "u"
  chainID := 0
  tokenValue := fl64OfFrac 1 1000

/-- The transaction `main.go` builds for `fNativeA` in `envA`. -/
def txNativeA : DynFeeTx :=
  ⟨421614, 5, 0, 100000000, 21000, 1, 0, []⟩

/-- The transaction `main.go` builds for `fTokenA` in `envA`. -/
def txTokenA : DynFeeTx :=
  ⟨421614, 5, 0, 100000000, 60000, 2, 0, [0xa9, 0x05, 0x9c, 0xbb, 1, 1000]⟩

/-- The transaction `part_001` builds for `f001A` in `envA`. -/
def tx001A : DynFeeTx :=
  ⟨421614, 5, 0, 200000000, 60000, 1, 1000000000000000, []⟩

/-- Inversion for `mainGoTx`: a run that produced a transaction passed
validation and built either the native-transfer record (empty `tokenContract`)
or the token-transfer record for the decimals value the contract reported. -/
theorem mainGoTx_inv (f : Flags) (env : Env) (t : DynFeeTx)
    (h : mainGoTx f env = some t) :
    (f.tokenContract = "" ∧ t = mainGoNativeTx f env) ∨
    (f.tokenContract ≠ "" ∧ ∃ d,
      getTokenDecimals env.callContract (env.hexToAddress f.tokenContract)
        = Except.ok (some d) ∧ t = mainGoTokenTx f env d) := by
  unfold mainGoTx at h
  split at h
  · exact absurd h (by simp)
  · split at h
    · exact absurd h (by simp)
    · split at h
      next hc =>
        left
        exact ⟨hc, by injection h with h2; exact h2.symm⟩
      next hc =>
        right
        refine ⟨hc, ?_⟩
        split at h
        · exact absurd h (by simp)
        · exact absurd h (by simp)
        next d hd =>
          exact ⟨d, hd, by injection h with h2; exact h2.symm⟩

/-- Inversion for `part001Tx`: a run that produced a transaction built the
`part001BuiltTx` record. -/
theorem part001Tx_inv (f : Flags001) (env : Env) (t : DynFeeTx)
    (h : part001Tx f env = some t) : t = part001BuiltTx f env := by
  unfold part001Tx at h
  split at h
  · exact absurd h (by simp)
  · injection h with h2; exact h2.symm

/-- Computation lemma: when the raw contract call succeeds, `getTokenDecimals`
returns (through its non-error channel) the last byte of the result. -/
theorem getTokenDecimals_ok (call : CallMsg → Except String (List ℕ)) (addr : ℕ)
    (r : List ℕ) (hc : call (decimalsCallMsg addr) = Except.ok r) :
    getTokenDecimals call addr = Except.ok r.getLast? := by
  unfold getTokenDecimals
  rw [hc]

/-- Computation lemma: when the raw contract call fails, `getTokenDecimals`
returns the call's error. -/
theorem getTokenDecimals_err (call : CallMsg → Except String (List ℕ)) (addr : ℕ)
    (e : String) (hc : call (decimalsCallMsg addr) = Except.error e) :
    getTokenDecimals call addr = Except.error e := by
  unfold getTokenDecimals
  rw [hc]

/-- Claim C1, counterexample: in `main.go`, the end-to-end scenario (chain id
421614, base fee 100000000, priority fee 0, native transfer of 0.001) yields a
fee cap of 100000000, not `baseFee × 2 + priorityFee = 200000000`: lines
139-142 compute `baseFee + priorityFee × 2`, with the doubling on the wrong
operand. -/
theorem c1_counterexample :
    (mainGoTx fNativeA envA).map DynFeeTx.gasFeeCap = some 100000000 ∧
    ¬ (100000000 : ℤ) = 100000000 * 2 + 0 := by decide

/-- Claim C1, amended: the fee cap of the constructed transaction equals
`baseFee × 2 + priorityFee` in the earlier variants (`part_000`, `part_001`),
so base fee 100000000 with priority fee 0 yields 200000000 there; in the main
variant (`main.go`) the fee cap is `baseFee + priorityFee × 2` instead, so the
same scenario yields 100000000. -/
theorem c1_amended (f : Flags) (f1 : Flags001) (env : Env) (t t1 : DynFeeTx)
    (h : mainGoTx f env = some t) (h1 : part001Tx f1 env = some t1) :
    t.gasFeeCap = env.baseFee + env.suggestGasTipCap * 2 ∧
    t1.gasFeeCap = env.baseFee * 2 + env.suggestGasTipCap := by
  constructor
  · rcases mainGoTx_inv f env t h with ⟨_, rfl⟩ | ⟨_, d, _, rfl⟩ <;> rfl
  · rw [part001Tx_inv f1 env t1 h1]; rfl

/-- Witness for `c1_amended` at the scenario inputs. -/
theorem c1_amended_witness :
    (mainGoTx fNativeA envA = some txNativeA ∧ part001Tx f001A envA = some tx001A) ∧
    (txNativeA.gasFeeCap = envA.baseFee + envA.suggestGasTipCap * 2 ∧
      tx001A.gasFeeCap = envA.baseFee * 2 + envA.suggestGasTipCap) :=
  ⟨⟨by decide, by decide⟩,
    c1_amended fNativeA f001A envA txNativeA tx001A (by decide) (by decide)⟩

/-- Claim C2: in the main variant the claim fails although the conversion
itself is computed as stated: for the native transfer of 0.001 the program
computes (and prints) `ethWeiValue = 1000000000000000` wei, and `part_001`
puts that amount into the transaction, but `main.go` line 102 declares a new
`transferAmount` with `:=` inside the if-block, shadowing the nil outer
variable of line 95, so the transaction `main.go` builds carries value 0. -/
theorem c2_native_value_bug :
    (mainGoTx fNativeA envA).map DynFeeTx.value = some 0 ∧
    ethWeiValue (fl64OfFrac 1 1000) = 1000000000000000 ∧
    (part001Tx f001A envA).map DynFeeTx.value = some 1000000000000000 ∧
    ¬ (0 : ℤ) = 1000000000000000 := by decide

/-- Claim C3, counterexample: for a token transfer of amount 1 (exact as a
`float64`) against a token reporting `decimals() = 23`, the base-unit amount
placed in the call data is 99999999999999991611392, not
`1 × 10^23 = 100000000000000000000000` truncated: `math.Pow10(23)` is the
`float64` nearest 10^23, which is below it. -/
theorem c3_counterexample :
    (mainGoTx fToken23 envB).map DynFeeTx.data = some [99999999999999991611392] ∧
    tokenBaseUnits (fl64OfFrac 1 1) 23 = 99999999999999991611392 ∧
    ¬ (99999999999999991611392 : ℤ) = Int.tdiv (1 * 10 ^ 23) 1 := by decide

/-- Claim C3, amended: the base-unit second argument of the encoded transfer
call is `tokenBaseUnits a d`, the truncation of the 53-bit `float64`/
`big.Float` product of the parsed amount and `math.Pow10 d`; this equals
`a × 10^d` truncated toward zero whenever that binary product is exact — in
particular for the spec's example `a = 0.001, d = 6` both give 1000 — but not
in general (see the counterexample at `d = 23`). -/
theorem c3_amended (f : Flags) (env : Env) (t : DynFeeTx) (r : List ℕ) (d : ℕ)
    (htok : f.tokenContract ≠ "")
    (hres : env.callContract (decimalsCallMsg (env.hexToAddress f.tokenContract))
      = Except.ok r)
    (hd : r.getLast? = some d)
    (h : mainGoTx f env = some t) :
    t.data = env.abiPack ("transfer") (env.hexToAddress f.receiver)
      (tokenBaseUnits f.tokenValue d) ∧
    tokenBaseUnits (fl64OfFrac 1 1000) 6 = Int.tdiv (1 * 10 ^ 6) 1000 := by
  refine ⟨?_, by decide⟩
  rcases mainGoTx_inv f env t h with ⟨hc, _⟩ | ⟨_, d2, hd2, rfl⟩
  · exact absurd hc htok
  · have hg : getTokenDecimals env.callContract (env.hexToAddress f.tokenContract)
        = Except.ok (some d) := by
      rw [getTokenDecimals_ok env.callContract (env.hexToAddress f.tokenContract) r hres, hd]
    rw [hg] at hd2
    injection hd2 with h3
    injection h3 with h4
    rw [h4]
    exact rfl

/-- Witness for `c3_amended` at the token-transfer inputs. -/

theorem c3_amended_witness :
    (fTokenA.tokenContract ≠ "" ∧
      envA.callContract (decimalsCallMsg (envA.hexToAddress fTokenA.tokenContract))
        = Except.ok (List.replicate 31 0 ++ [6]) ∧
      (List.replicate 31 0 ++ [6]).getLast? = some 6 ∧
      mainGoTx fTokenA envA = some txTokenA) ∧
    (txTokenA.data = envA.abiPack ("transfer") (envA.hexToAddress fTokenA.receiver)
        (tokenBaseUnits fTokenA.tokenValue 6) ∧
      tokenBaseUnits (fl64OfFrac 1 1000) 6 = Int.tdiv (1 * 10 ^ 6) 1000) :=
  ⟨⟨by decide, rfl, by decide, by decide⟩,
    c3_amended fTokenA envA txTokenA (List.replicate 31 0 ++ [6]) 6
      (by decide) rfl (by decide) (by decide)⟩

/-- Claim C4: supplying exactly one of `tokenContract` and `tokenABI` makes
`main.go` exit nonzero during flag validation, with no dial (hence no network
call) among the effects of the run. -/
theorem c4_token_flag_pairing (f : Flags)
    (h : (f.tokenContract = "" ∧ f.tokenABI ≠ "") ∨
      (f.tokenContract ≠ "" ∧ f.tokenABI = "")) :
    Effect.exitNonzero ∈ mainGoPreDial f ∧ (mainGoPreDial f).any isDial = false := by
  by_cases hm : f.privateKey = "" ∨ f.receiver = "" ∨ f.rpcURL = "" ∨ f.tokenValue.num = 0
  · unfold mainGoPreDial
    rw [if_pos hm]
    exact ⟨by decide, by decide⟩
  · unfold mainGoPreDial
    rw [if_neg hm, if_pos h]
    exact ⟨by decide, by decide⟩

/-- Witness for `c4_token_flag_pairing`: a token contract without an ABI. -/
theorem c4_witness :
    ((fBadPair.tokenContract = "" ∧ fBadPair.tokenABI ≠ "") ∨
      (fBadPair.tokenContract ≠ "" ∧ fBadPair.tokenABI = "")) ∧
    (Effect.exitNonzero ∈ mainGoPreDial fBadPair ∧
      (mainGoPreDial fBadPair).any isDial = false) :=
  ⟨by decide, c4_token_flag_pairing fBadPair (by decide)⟩

/-- Claim C5, counterexample: in `part_000`, a run with the private-key flag
absent exits nonzero via `log.Fatal` without printing the usage text, so the
claim's "prints the usage text" fails for that variant. -/
theorem c5_counterexample :
    (f001Miss.privateKey = "" ∨ f001Miss.receiver = "" ∨ f001Miss.rpcURL = "" ∨
      f001Miss.tokenValue.num = 0) ∧
    Effect.printUsage ∉ part000PreDial f001Miss ∧
    Effect.exitNonzero ∈ part000PreDial f001Miss := by decide

/-- Claim C5, amended: whenever a required flag (privateKey, receiver, rpcURL
or tokenValue) is absent, every variant exits with nonzero status before
dialing the RPC endpoint; `main.go` and `part_001` also print the usage text,
while `part_000` prints a fatal error line without the usage text. -/
theorem c5_amended (f : Flags) (f1 : Flags001)
    (h : f.privateKey = "" ∨ f.receiver = "" ∨ f.rpcURL = "" ∨ f.tokenValue.num = 0)
    (h1 : f1.privateKey = "" ∨ f1.receiver = "" ∨ f1.rpcURL = "" ∨
      f1.tokenValue.num = 0) :
    (Effect.printUsage ∈ mainGoPreDial f ∧ Effect.exitNonzero ∈ mainGoPreDial f ∧
      (mainGoPreDial f).any isDial = false) ∧
    (Effect.printUsage ∈ part001PreDial f1 ∧ Effect.exitNonzero ∈ part001PreDial f1 ∧
      (part001PreDial f1).any isDial = false) ∧
    (Effect.exitNonzero ∈ part000PreDial f1 ∧
      (part000PreDial f1).any isDial = false) := by
  refine ⟨?_, ?_, ?_⟩
  · unfold mainGoPreDial
    rw [if_pos h]
    exact ⟨by decide, by decide, by decide⟩
  · unfold part001PreDial
    rw [if_pos h1]
    exact ⟨by decide, by decide, by decide⟩
  · unfold part000PreDial
    rw [if_pos h1]
    exact ⟨by decide, by decide⟩

/-- Witness for `c5_amended`: the private-key flag absent in both flag
records. -/
theorem c5_amended_witness :
    ((fMissA.privateKey = "" ∨ fMissA.receiver = "" ∨ fMissA.rpcURL = "" ∨
        fMissA.tokenValue.num = 0) ∧
      (f001Miss.privateKey = "" ∨ f001Miss.receiver = "" ∨ f001Miss.rpcURL = "" ∨
        f001Miss.tokenValue.num = 0)) ∧
    ((Effect.printUsage ∈ mainGoPreDial fMissA ∧ Effect.exitNonzero ∈ mainGoPreDial fMissA ∧
        (mainGoPreDial fMissA).any isDial = false) ∧
      (Effect.printUsage ∈ part001PreDial f001Miss ∧
        Effect.exitNonzero ∈ part001PreDial f001Miss ∧
        (part001PreDial f001Miss).any isDial = false) ∧
      (Effect.exitNonzero ∈ part000PreDial f001Miss ∧
        (part000PreDial f001Miss).any isDial = false)) :=
  ⟨⟨by decide, by decide⟩, c5_amended fMissA f001Miss (by decide) (by decide)⟩

/-- Claim C6: the decimals query sends exactly the 4-byte `decimals()`
selector `0x313ce567` as call data, and on a successful 32-byte result ending
in byte `0x06` the function returns 6 (the last byte, read as an unsigned
8-bit value). -/
theorem c6_decimals_query (call : CallMsg → Except String (List ℕ)) (addr : ℕ)
    (res : List ℕ) (hcall : call (decimalsCallMsg addr) = Except.ok res)
    (_hlen : res.length = 32) (hlast : res.getLast? = some 6) :
    (decimalsCallMsg addr).data = [0x31, 0x3c, 0xe5, 0x67] ∧
    getTokenDecimals call addr = Except.ok (some 6) := by
  refine ⟨rfl, ?_⟩
  rw [getTokenDecimals_ok call addr res hcall, hlast]

/-- Witness for `c6_decimals_query` on a 32-byte result ending in 0x06. -/
theorem c6_witness :
    (callA (decimalsCallMsg 2) = Except.ok (List.replicate 31 0 ++ [6]) ∧
      (List.replicate 31 0 ++ [6]).length = 32 ∧
      (List.replicate 31 0 ++ [6]).getLast? = some 6) ∧
    ((decimalsCallMsg 2).data = [0x31, 0x3c, 0xe5, 0x67] ∧
      getTokenDecimals callA 2 = Except.ok (some 6)) :=
  ⟨⟨rfl, by decide, by decide⟩,
    c6_decimals_query callA 2 (List.replicate 31 0 ++ [6])
      rfl (by decide) (by decide)⟩

/-- Claim C7: with nonnegative fetched base fee and suggested priority fee,
the constructed transaction's fee cap is at least base fee + priority fee, in
the main variant (`baseFee + 2·tip`) and in the earlier variants
(`2·baseFee + tip`). -/
theorem c7_feecap_invariant (f : Flags) (f1 : Flags001) (env : Env) (t t1 : DynFeeTx)
    (hb : 0 ≤ env.baseFee) (hp : 0 ≤ env.suggestGasTipCap)
    (h : mainGoTx f env = some t) (h1 : part001Tx f1 env = some t1) :
    env.baseFee + env.suggestGasTipCap ≤ t.gasFeeCap ∧
    env.baseFee + env.suggestGasTipCap ≤ t1.gasFeeCap := by
  have e1 : t.gasFeeCap = env.baseFee + env.suggestGasTipCap * 2 := by
    rcases mainGoTx_inv f env t h with ⟨_, rfl⟩ | ⟨_, d, _, rfl⟩ <;> rfl
  have e2 : t1.gasFeeCap = env.baseFee * 2 + env.suggestGasTipCap := by
    rw [part001Tx_inv f1 env t1 h1]; rfl
  constructor
  · rw [e1]; linarith
  · rw [e2]; linarith

/-- Witness for `c7_feecap_invariant` at the scenario inputs. -/
theorem c7_witness :
    ((0 : ℤ) ≤ envA.baseFee ∧ (0 : ℤ) ≤ envA.suggestGasTipCap ∧
      mainGoTx fNativeA envA = some txNativeA ∧ part001Tx f001A envA = some tx001A) ∧
    (envA.baseFee + envA.suggestGasTipCap ≤ txNativeA.gasFeeCap ∧
      envA.baseFee + envA.suggestGasTipCap ≤ tx001A.gasFeeCap) :=
  ⟨⟨by decide, by decide, by decide, by decide⟩,
    c7_feecap_invariant fNativeA f001A envA txNativeA tx001A
      (by decide) (by decide) (by decide) (by decide)⟩

/-- Claim C8: in the main variant, a native transfer's gas limit is the
constant 21000 and a token transfer's gas limit is exactly the node's
gas-estimation result, whatever the node returns. -/
theorem c8_gas_limit (f : Flags) (env : Env) (t : DynFeeTx)
    (h : mainGoTx f env = some t) :
    (f.tokenContract = "" → t.gas = 21000) ∧
    (f.tokenContract ≠ "" → t.gas = env.estimateGas) := by
  rcases mainGoTx_inv f env t h with ⟨hc, rfl⟩ | ⟨hc, d, _, rfl⟩
  · exact ⟨fun _ => rfl, fun hn => absurd hc hn⟩
  · exact ⟨fun he => absurd he hc, fun _ => rfl⟩

/-- Witness for `c8_gas_limit`, applied to a native run and a token run. -/
theorem c8_witness :
    (mainGoTx fNativeA envA = some txNativeA ∧ mainGoTx fTokenA envA = some txTokenA) ∧
    ((fNativeA.tokenContract = "" → txNativeA.gas = 21000) ∧
      (fNativeA.tokenContract ≠ "" → txNativeA.gas = envA.estimateGas)) ∧
    ((fTokenA.tokenContract = "" → txTokenA.gas = 21000) ∧
      (fTokenA.tokenContract ≠ "" → txTokenA.gas = envA.estimateGas)) :=
  ⟨⟨by decide, by decide⟩, c8_gas_limit fNativeA envA txNativeA (by decide),
    c8_gas_limit fTokenA envA txTokenA (by decide)⟩

/-- Claim C9: a token-transfer transaction is addressed to the token contract,
carries native value exactly zero, and its call data is the ABI encoding of
`transfer(address,uint256)` applied to the receiver address and the computed
base-unit amount. -/
theorem c9_token_tx_fields (f : Flags) (env : Env) (t : DynFeeTx) (r : List ℕ) (d : ℕ)
    (htok : f.tokenContract ≠ "")
    (hres : env.callContract (decimalsCallMsg (env.hexToAddress f.tokenContract))
      = Except.ok r)
    (hd : r.getLast? = some d)
    (h : mainGoTx f env = some t) :
    t.toAddr = env.hexToAddress f.tokenContract ∧
    t.value = 0 ∧
    t.data = env.abiPack ("transfer") (env.hexToAddress f.receiver)
      (tokenBaseUnits f.tokenValue d) := by
  rcases mainGoTx_inv f env t h with ⟨hc, _⟩ | ⟨_, d2, hd2, rfl⟩
  · exact absurd hc htok
  · have hg : getTokenDecimals env.callContract (env.hexToAddress f.tokenContract)
        = Except.ok (some d) := by
      rw [getTokenDecimals_ok env.callContract (env.hexToAddress f.tokenContract) r hres, hd]
    rw [hg] at hd2
    injection hd2 with h3
    injection h3 with h4
    rw [h4]
    exact ⟨rfl, rfl, rfl⟩

/-- Witness for `c9_token_tx_fields` at the token-transfer inputs. -/
theorem c9_witness :
    (fTokenA.tokenContract ≠ "" ∧
      envA.callContract (decimalsCallMsg (envA.hexToAddress fTokenA.tokenContract))
        = Except.ok (List.replicate 31 0 ++ [6]) ∧
      (List.replicate 31 0 ++ [6]).getLast? = some 6 ∧
      mainGoTx fTokenA envA = some txTokenA) ∧
    (txTokenA.toAddr = envA.hexToAddress fTokenA.tokenContract ∧
      txTokenA.value = 0 ∧
      txTokenA.data = envA.abiPack ("transfer") (envA.hexToAddress fTokenA.receiver)
        (tokenBaseUnits fTokenA.tokenValue 6)) :=
  ⟨⟨by decide, rfl, by decide, by decide⟩,
    c9_token_tx_fields fTokenA envA txTokenA (List.replicate 31 0 ++ [6]) 6
      (by decide) rfl (by decide) (by decide)⟩

/-- Claim C10: a successful decimals call with an empty result makes
`getTokenDecimals` hit the index-out-of-range panic (the `Except.ok none`
outcome) instead of returning through its error result; a successful call
always returns through the non-error channel (with the last byte of the
result), and the error path merely forwards a failing call's error. -/
theorem c10_empty_result (call callOk callErr : CallMsg → Except String (List ℕ))
    (addr : ℕ) (r : List ℕ) (e : String)
    (hempty : call (decimalsCallMsg addr) = Except.ok [])
    (hok : callOk (decimalsCallMsg addr) = Except.ok r)
    (herr : callErr (decimalsCallMsg addr) = Except.error e) :
    getTokenDecimals call addr = Except.ok none ∧
    getTokenDecimals callOk addr = Except.ok r.getLast? ∧
    getTokenDecimals callErr addr = Except.error e :=
  ⟨by rw [getTokenDecimals_ok call addr ([]) hempty]; rfl,
    getTokenDecimals_ok callOk addr r hok,
    getTokenDecimals_err callErr addr e herr⟩

/-- Witness for `c10_empty_result` on concrete endpoints. -/
theorem c10_witness :
    (callEmptyA (decimalsCallMsg 2) = Except.ok ([]) ∧
      callA (decimalsCallMsg 2) = Except.ok (List.replicate 31 0 ++ [6]) ∧
      callErrA (decimalsCallMsg 2) = Except.error ("boom")) ∧
    (getTokenDecimals callEmptyA 2 = Except.ok none ∧
      getTokenDecimals callA 2 = Except.ok (List.replicate 31 0 ++ [6]).getLast? ∧
      getTokenDecimals callErrA 2 = Except.error ("boom")) :=
  ⟨⟨rfl, rfl, rfl⟩,
    c10_empty_result callEmptyA callA callErrA 2 (List.replicate 31 0 ++ [6]) ("boom")
      rfl rfl rfl⟩

-- Sanity checks: the model evaluates on concrete inputs.
example : mainGoTx fNativeA envA = some txNativeA := by decide
example : mainGoTx fTokenA envA = some txTokenA := by decide
example : part001Tx f001A envA = some tx001A := by decide
example : (mainGoTx fToken23 envB).map DynFeeTx.data = some [99999999999999991611392] := by decide
example : tokenBaseUnits (fl64OfFrac 1 1000) 6 = 1000 := by decide
example : bits 1024 = 11 := by decide
example : fl64OfFrac 1 1000 = ⟨4611686018427388, 62⟩ := by decide
example : fl64OfFrac 1 1 = ⟨2 ^ 52, 52⟩ := by decide
example : (fl64OfFrac 1 1).trunc = 1 := by decide
example : dyRound 53 (Dy.ofInt (10 ^ 23)) = ⟨99999999999999991611392, 0⟩ := by decide
example : (pow10F 23).trunc = 99999999999999991611392 := by decide
example : (pow10F 6).trunc = 1000000 := by decide
example : (dyRound 64 (Dy.mul (fl64OfFrac 1 1000) (Dy.ofInt (10 ^ 18)))).trunc
    = 1000000000000000 := by decide
